import Mathlib

/-!
Verification of the diagnostic / platform layer of xavs2
(`src/source/common/common.c`): the severity-gated logging sink
(`xavs2_log`, `xavs2_log_default`), the optional trace recorder
(`xavs2_trace_init`, `xavs2_trace`, `xavs2_trace_destroy`) and the
microsecond clock (`xavs2_mdate`).

The C code is shallowly embedded: severities and C `int` values become
`Nat`/`Int`, the bitwise mask `& 0x0F` on a non-negative level becomes
`% 16`, the process-wide trace file handle becomes an explicit
`TraceState` threaded through the operations, and the emitted text is
returned as a `String` instead of being written to `stdout`.
-/

/- =========================================================================
   Severity constants.
   Modelled from the spec: the numeric values of the severity enumeration
   live in `common.h`, which is not part of the excerpt.  The spec gives
   the total order {ERROR, WARNING, INFO, DEBUG, NOPREFIX, unknown} with
   lower value = more severe, which together with the renderer indexing
   `str_color[i_log_level]` over the five colors red/yellow/green/cyan/
   default fixes the enumeration 0,1,2,3,4.
   ========================================================================= -/

/-- `XAVS2_LOG_ERROR` severity constant. -/
def XAVS2_LOG_ERROR : Nat := 0

/-- `XAVS2_LOG_WARNING` severity constant. -/
def XAVS2_LOG_WARNING : Nat := 1

/-- `XAVS2_LOG_INFO` severity constant. -/
def XAVS2_LOG_INFO : Nat := 2

/-- `XAVS2_LOG_DEBUG` severity constant. -/
def XAVS2_LOG_DEBUG : Nat := 3

/-- `XAVS2_LOG_NOPREFIX` severity constant (suppresses the textual tag). -/
def XAVS2_LOG_NOPREFIX : Nat := 4

/- =========================================================================
   Data model: the parameter struct and the encoder handle, restricted to
   the fields `common.c` reads (`i_log_level`, `psz_trace_file`).
   ========================================================================= -/

/-- The fields of `xavs2_param_t` used by `common.c`: the configured
log-level threshold and the trace file path. -/
structure xavs2_param_t where
  i_log_level : Int
  psz_trace_file : String
deriving DecidableEq, Repr

/-- The encoder handle `xavs2_t`, restricted to the `param` pointer that
`xavs2_log` dereferences. -/
structure xavs2_t where
  param : xavs2_param_t
deriving DecidableEq, Repr

/- =========================================================================
   LogSink: `xavs2_log_default`, non-Windows (`!defined(_MSC_VER)`) branch,
   which colorizes via ANSI escape sequences in the output text itself.
   ========================================================================= -/

/-- The ANSI reset sequence `str_color_clear` = `"\033[0m"`. -/
def str_color_clear : String := "\x1b[0m"

/-- The color table `str_color` of `xavs2_log_default`:
index 0 red, 1 yellow, 2 green, 3 cyan, 4 default/reset. -/
def str_color (i : Nat) : String :=
  match i with
  | 0 => "\x1b[1;31m"
  | 1 => "\x1b[1;33m"
  | 2 => "\x1b[1;32m"
  | 3 => "\x1b[1;36m"
  | _ => "\x1b[0m"

/-- `xavs2_log_default` (non-`_MSC_VER` branch): picks a textual tag and a
color by `switch (i_log_level)` on the UNMASKED level (default case:
`"[unknown]: "` and red), then prints
`cur_color ++ tag ++ psz_fmt ++ str_color_clear` unless the level is
`INFO` or `NOPREFIX`, which are printed as plain `tag ++ psz_fmt`.
The function returns the exact text written to `stdout`; the code
consults no property of the output stream. -/
def xavs2_log_default (i_log_level : Nat) (psz_fmt : String) : String :=
  let tag_color : String × String :=
    if i_log_level = XAVS2_LOG_ERROR then ("[error]: ", str_color i_log_level)
    else if i_log_level = XAVS2_LOG_WARNING then ("[warning]: ", str_color i_log_level)
    else if i_log_level = XAVS2_LOG_INFO then ("[info]: ", str_color i_log_level)
    else if i_log_level = XAVS2_LOG_DEBUG then ("[debug]: ", str_color i_log_level)
    else if i_log_level = XAVS2_LOG_NOPREFIX then ("", str_color 3)
    else ("[unknown]: ", str_color 0)
  if i_log_level ≠ XAVS2_LOG_INFO ∧ i_log_level ≠ XAVS2_LOG_NOPREFIX then
    tag_color.2 ++ tag_color.1 ++ psz_fmt ++ str_color_clear
  else
    tag_color.1 ++ psz_fmt

/- =========================================================================
   LogGate: `xavs2_log`.
   ========================================================================= -/

/-- The gate condition of `xavs2_log`:
`h == NULL || (i_log_level & 0x0F) <= h->param->i_log_level`.
Severities passed by callers are non-negative, so the C mask `& 0x0F`
is `% 16`. -/
def xavs2_log_emitted (p : Option xavs2_t) (i_log_level : Nat) : Bool :=
  match p with
  | none => true
  | some h => ((i_log_level % 16 : Nat) : Int) ≤ h.param.i_log_level

/-- `xavs2_log`: when the gate admits the message, the already-formatted
body `str_in` is rendered by `xavs2_log_default`; otherwise nothing is
written.  Returns the text written to `stdout`, `none` when suppressed. -/
def xavs2_log (p : Option xavs2_t) (i_log_level : Nat) (str_in : String) :
    Option String :=
  if xavs2_log_emitted p i_log_level then
    some (xavs2_log_default i_log_level str_in)
  else
    none

/- =========================================================================
   The formatting buffer of `xavs2_log`:
   `char str_in[2048]; vsprintf(str_in, psz_fmt, arg);`
   `vsprintf` writes the full rendered text plus a terminating NUL with no
   bound on the destination.
   ========================================================================= -/

/-- Size in bytes of the stack buffer `char str_in[2048]` in `xavs2_log`. -/
def str_in_size : Nat := 2048

/-- Number of bytes `vsprintf` stores into `str_in` for a rendered message:
the text plus the terminating NUL.  The call in `xavs2_log` imposes no
bound (it is `vsprintf`, not `vsnprintf`). -/
def vsprintf_bytes_written (rendered : String) : Nat := rendered.length + 1

/-- `true` when the `vsprintf` call in `xavs2_log` writes past the end of
`str_in`. -/
def xavs2_log_buffer_overflow (rendered : String) : Bool :=
  decide (str_in_size < vsprintf_bytes_written rendered)

/-- A format string of 2048 `a` characters (no conversion directives), whose
rendered text is itself: 2048 bytes of text, 2049 bytes stored. -/
def overlong_fmt : String := String.mk (List.replicate 2048 'a')

/- =========================================================================
   TraceRecorder (`#if XAVS2_TRACE`): the process-wide handle `h_trace`
   (`FILE *`, initially NULL) becomes an explicit state.  A file handle
   carries its open/closed status — `fclose` does not null the pointer,
   so the model must distinguish "NULL" from "dangling, already closed" —
   and the flushed on-disk content as the list of records written.
   ========================================================================= -/

/-- A `FILE *` object for the trace file: whether the stream is still
open, and the (always flushed) file content as the list of appended
records. -/
structure TraceFileHandle where
  isOpen : Bool
  content : List String
deriving DecidableEq, Repr

/-- The process-wide trace state: `h_trace`, `none` for the NULL pointer. -/
structure TraceState where
  h_trace : Option TraceFileHandle
deriving DecidableEq, Repr

/-- The initial value of the global `FILE *h_trace = NULL;`. -/
def trace_init_state : TraceState := { h_trace := none }

/-- Result of `xavs2_trace_init`: the returned status, the `xavs2_log`
calls it issued (severity, formatted message), and the new state. -/
structure TraceInitResult where
  ret : Int
  logged : List (Nat × String)
  st : TraceState
deriving DecidableEq, Repr

/-- `xavs2_trace_init(param)`: when `strlen(param->psz_trace_file) > 0`
it opens (creates/truncates) the file — `fopen_ok` says whether `fopen`
succeeds — storing the result into `h_trace`; on `fopen` failure it logs
`trace: can't write to %s\n` at ERROR severity via `xavs2_log(NULL, …)`
and returns `-1`.  With an empty path it touches nothing and returns 0. -/
def xavs2_trace_init (fopen_ok : Bool) (param : xavs2_param_t)
    (st : TraceState) : TraceInitResult :=
  if 0 < param.psz_trace_file.length then
    if fopen_ok then
      { ret := 0, logged := [],
        st := { h_trace := some { isOpen := true, content := [] } } }
    else
      { ret := -1,
        logged := [( XAVS2_LOG_ERROR,
                     "trace: can't write to " ++ param.psz_trace_file ++ "\n")],
        st := { h_trace := none } }
  else
    { ret := 0, logged := [], st := st }

/-- `xavs2_trace(psz_fmt, ...)`: when `h_trace` is non-NULL, the rendered
record (`record` is the result of formatting the arguments per the format
string) is appended by `vfprintf` — whose return value, the number of
characters written, becomes the return value — and the stream is
immediately flushed by `fflush`, so `content` is the on-disk content.
When `h_trace` is NULL nothing happens and 0 is returned. -/
def xavs2_trace (record : String) (st : TraceState) : Int × TraceState :=
  match st.h_trace with
  | none => (0, st)
  | some f =>
      ((record.length : Int),
       { h_trace := some { f with content := f.content ++ [record] } })

/-- `xavs2_trace_destroy()`: `if (h_trace) fclose(h_trace);` — note the
code does NOT reset `h_trace` to NULL afterwards.  The first component
records whether `fclose` was invoked on an already-closed stream
(a double-close, undefined behavior in C). -/
def xavs2_trace_destroy (st : TraceState) : Bool × TraceState :=
  match st.h_trace with
  | none => (false, st)
  | some f => (!f.isOpen, { h_trace := some { f with isOpen := false } })

/-- Runs a sequence of `xavs2_trace` calls, collecting the return values. -/
def xavs2_trace_run (records : List String) (st : TraceState) :
    List Int × TraceState :=
  match records with
  | [] => ([], st)
  | r :: rs =>
      let first := xavs2_trace r st
      let rest := xavs2_trace_run rs first.2
      (first.1 :: rest.1, rest.2)

/- =========================================================================
   Clock: `xavs2_mdate`.  The result type is `int64_t`; 64-bit wrap-around
   is made explicit.  The POSIX branch uses `gettimeofday`; the Windows
   branch without a performance counter uses `ftime` (millisecond
   resolution).
   ========================================================================= -/

/-- Reduction of an unbounded integer to the value of the `int64_t` with
the same low 64 bits. -/
def int64_wrap (x : Int) : Int := (x + 2 ^ 63) % 2 ^ 64 - 2 ^ 63

/-- `xavs2_mdate`, POSIX branch:
`(int64_t)tv_date.tv_sec * 1000000 + (int64_t)tv_date.tv_usec`. -/
def xavs2_mdate_posix (tv_sec tv_usec : Int) : Int :=
  int64_wrap (tv_sec * 1000000 + tv_usec)

/-- `xavs2_mdate`, millisecond-resolution fallback branch:
`((int64_t)tb.time * 1000 + (int64_t)tb.millitm) * 1000`. -/
def xavs2_mdate_ftime (time millitm : Int) : Int :=
  int64_wrap ((time * 1000 + millitm) * 1000)

/- =========================================================================
   Helper lemmas.
   ========================================================================= -/

/-- Running `xavs2_trace` repeatedly on the NULL handle returns 0 every
time and never changes the state. -/
theorem xavs2_trace_run_null (records : List String) :
    xavs2_trace_run records trace_init_state =
      (List.replicate records.length 0, trace_init_state) := by
  induction records with
  | nil => simp [xavs2_trace_run]
  | cons r rs ih =>
      simp only [trace_init_state] at ih
      simp [xavs2_trace_run, xavs2_trace, trace_init_state, ih,
        List.replicate_succ]

/-- Running `xavs2_trace` on an open handle returns each record's length
and appends the records, in order, to the file content. -/
theorem xavs2_trace_run_open (f : TraceFileHandle) (records : List String) :
    xavs2_trace_run records { h_trace := some f } =
      (records.map (fun s => (s.length : Int)),
       { h_trace := some { isOpen := f.isOpen, content := f.content ++ records } }) := by
  induction records generalizing f with
  | nil => simp [xavs2_trace_run]
  | cons r rs ih =>
      simp [xavs2_trace_run, xavs2_trace, ih]

/-- `int64_wrap` is the identity on values representable in `int64_t`. -/
theorem int64_wrap_eq_of_bounds (x : Int) (hlo : -2 ^ 63 ≤ x)
    (hhi : x < 2 ^ 63) : int64_wrap x = x := by
  unfold int64_wrap
  have h1 : 0 ≤ x + 2 ^ 63 := by linarith
  have h2 : x + 2 ^ 63 < 2 ^ 64 := by
    have h3 : (2 : Int) ^ 64 = 2 ^ 63 + 2 ^ 63 := by norm_num
    linarith
  rw [Int.emod_eq_of_lt h1 h2]
  ring

/- =========================================================================
   Claim theorems.
   ========================================================================= -/

/-- C1: with a non-null context whose configured threshold `T` is one of
the (non-negative) severity values, `xavs2_log` emits the message iff
the masked severity `S % 16` (= `S & 0x0F`) is ≤ `T`; ERROR is always
emitted; and the decision depends only on the low 4 bits of `S`. -/
theorem xavs2_log_gate_spec (h : xavs2_t) (S : Nat)
    (hT : 0 ≤ h.param.i_log_level) :
    (xavs2_log_emitted (some h) S = true ↔
        ((S % 16 : Nat) : Int) ≤ h.param.i_log_level)
    ∧ xavs2_log_emitted (some h) XAVS2_LOG_ERROR = true
    ∧ (∀ S2 : Nat, S2 % 16 = S % 16 →
        xavs2_log_emitted (some h) S2 = xavs2_log_emitted (some h) S) := by
  refine ⟨?_, ?_, ?_⟩
  · simp [xavs2_log_emitted]
  · simp [xavs2_log_emitted, XAVS2_LOG_ERROR]
    exact hT
  · intro S2 hS2
    simp [xavs2_log_emitted, hS2]

/-- Witness for C1 at threshold T = 2 (INFO) and severity S = 19
(= 0x10 | DEBUG). -/
theorem xavs2_log_gate_spec_witness :
    (0 : Int) ≤ (({ param := { i_log_level := 2, psz_trace_file := "" } } :
        xavs2_t)).param.i_log_level
    ∧ ((xavs2_log_emitted
          (some { param := { i_log_level := 2, psz_trace_file := "" } }) 19 = true ↔
        ((19 % 16 : Nat) : Int) ≤
          ({ param := { i_log_level := 2, psz_trace_file := "" } } :
            xavs2_t).param.i_log_level)
      ∧ xavs2_log_emitted
          (some { param := { i_log_level := 2, psz_trace_file := "" } })
          XAVS2_LOG_ERROR = true
      ∧ (∀ S2 : Nat, S2 % 16 = 19 % 16 →
          xavs2_log_emitted
              (some { param := { i_log_level := 2, psz_trace_file := "" } }) S2 =
            xavs2_log_emitted
              (some { param := { i_log_level := 2, psz_trace_file := "" } }) 19)) :=
  ⟨by decide,
   xavs2_log_gate_spec { param := { i_log_level := 2, psz_trace_file := "" } } 19
     (by decide)⟩

/-- C2 is refuted by the code: `xavs2_log` renders into the fixed
2048-byte stack buffer `str_in` with `vsprintf`, which enforces no bound.
A format string of 2048 plain characters is admitted unchanged and makes
`vsprintf` store 2049 bytes — one past the end of `str_in`. -/
theorem xavs2_log_overflow_at_2048 :
    xavs2_log_buffer_overflow overlong_fmt = true
    ∧ xavs2_log none XAVS2_LOG_ERROR overlong_fmt =
        some (xavs2_log_default XAVS2_LOG_ERROR overlong_fmt) := by
  constructor
  · have hlen : overlong_fmt.length = 2048 := by
      show (List.replicate 2048 'a').length = 2048
      exact List.length_replicate 2048 'a'
    simp [xavs2_log_buffer_overflow, vsprintf_bytes_written, str_in_size, hlen]
  · rfl

/-- C3 counterexample: the renderer never inspects the output stream, so
even on a non-interactive stream `log(NULL, ERROR, "disk full")` does NOT
produce the plain text `[error]: disk full` — the output carries ANSI
escape sequences unconditionally. -/
theorem xavs2_log_error_not_plain :
    xavs2_log none XAVS2_LOG_ERROR "disk full" ≠ some "[error]: disk full" := by
  decide

/-- C3 amended: on the non-Windows build path `xavs2_log` performs no
interactivity check: an admitted ERROR message is always wrapped as
red escape sequence ++ `"[error]: "` ++ message ++ reset sequence,
whatever the output stream; only INFO and NOPREFIX severities are
rendered as plain unwrapped text. -/
theorem xavs2_log_error_always_wrapped (msg : String) :
    xavs2_log none XAVS2_LOG_ERROR msg =
      some ("\x1b[1;31m" ++ "[error]: " ++ msg ++ "\x1b[0m")
    ∧ xavs2_log none XAVS2_LOG_INFO msg = some ("[info]: " ++ msg)
    ∧ xavs2_log none XAVS2_LOG_NOPREFIX msg = some msg := by
  refine ⟨rfl, rfl, ?_⟩
  simp [xavs2_log, xavs2_log_emitted, xavs2_log_default, XAVS2_LOG_ERROR,
    XAVS2_LOG_WARNING, XAVS2_LOG_INFO, XAVS2_LOG_DEBUG, XAVS2_LOG_NOPREFIX]

/-- C8: with a NULL context the gate of `xavs2_log` short-circuits, so the
message is always formatted and emitted, whatever the severity. -/
theorem xavs2_log_null_context_emits (S : Nat) (msg : String) :
    xavs2_log none S msg = some (xavs2_log_default S msg)
    ∧ (xavs2_log none S msg).isSome = true := by
  simp [xavs2_log, xavs2_log_emitted]

/-- C4: `xavs2_trace_init` with an empty path returns success (0), logs
nothing, and leaves `h_trace` NULL, so every subsequent `xavs2_trace`
call returns 0 and no file content is ever produced, however many writes
are made. -/
theorem xavs2_trace_empty_path_noop (fopen_ok : Bool) (lvl : Int)
    (records : List String) :
    (xavs2_trace_init fopen_ok { i_log_level := lvl, psz_trace_file := "" }
        trace_init_state).ret = 0
    ∧ (xavs2_trace_init fopen_ok { i_log_level := lvl, psz_trace_file := "" }
        trace_init_state).logged = []
    ∧ (xavs2_trace_init fopen_ok { i_log_level := lvl, psz_trace_file := "" }
        trace_init_state).st = trace_init_state
    ∧ (xavs2_trace_run records
        (xavs2_trace_init fopen_ok { i_log_level := lvl, psz_trace_file := "" }
          trace_init_state).st).1 = List.replicate records.length 0
    ∧ (xavs2_trace_run records
        (xavs2_trace_init fopen_ok { i_log_level := lvl, psz_trace_file := "" }
          trace_init_state).st).2.h_trace = none := by
  have hinit :
      xavs2_trace_init fopen_ok { i_log_level := lvl, psz_trace_file := "" }
        trace_init_state =
      { ret := 0, logged := [], st := trace_init_state } := by
    simp [xavs2_trace_init]
  rw [hinit]
  refine ⟨rfl, rfl, rfl, ?_, ?_⟩
  · rw [xavs2_trace_run_null]
  · rw [xavs2_trace_run_null]
    rfl

/-- C5: `xavs2_trace_init` with a non-empty path whose `fopen` fails
returns -1, logs the failure at ERROR severity through `xavs2_log`
(which, called with a NULL context, emits it), holds no file handle,
and a subsequent write returns 0. -/
theorem xavs2_trace_init_open_failure (lvl : Int) (path : String)
    (hpath : 0 < path.length) (record : String) :
    (xavs2_trace_init false { i_log_level := lvl, psz_trace_file := path }
        trace_init_state).ret = -1
    ∧ (xavs2_trace_init false { i_log_level := lvl, psz_trace_file := path }
        trace_init_state).logged =
        [( XAVS2_LOG_ERROR, "trace: can't write to " ++ path ++ "\n")]
    ∧ (xavs2_log none XAVS2_LOG_ERROR
        ("trace: can't write to " ++ path ++ "\n")).isSome = true
    ∧ (xavs2_trace_init false { i_log_level := lvl, psz_trace_file := path }
        trace_init_state).st.h_trace = none
    ∧ (xavs2_trace record
        (xavs2_trace_init false { i_log_level := lvl, psz_trace_file := path }
          trace_init_state).st).1 = 0 := by
  simp [xavs2_trace_init, hpath, xavs2_trace, xavs2_log, xavs2_log_emitted]

/-- Witness for C5 at path `"t"`. -/
theorem xavs2_trace_init_open_failure_witness :
    0 < ("t" : String).length
    ∧ ((xavs2_trace_init false { i_log_level := 2, psz_trace_file := "t" }
          trace_init_state).ret = -1
      ∧ (xavs2_trace_init false { i_log_level := 2, psz_trace_file := "t" }
          trace_init_state).logged =
          [( XAVS2_LOG_ERROR, "trace: can't write to " ++ "t" ++ "\n")]
      ∧ (xavs2_log none XAVS2_LOG_ERROR
          ("trace: can't write to " ++ "t" ++ "\n")).isSome = true
      ∧ (xavs2_trace_init false { i_log_level := 2, psz_trace_file := "t" }
          trace_init_state).st.h_trace = none
      ∧ (xavs2_trace "x"
          (xavs2_trace_init false { i_log_level := 2, psz_trace_file := "t" }
            trace_init_state).st).1 = 0) :=
  ⟨by decide, xavs2_trace_init_open_failure 2 "t" (by decide) "x"⟩

/-- C6: after a successful `xavs2_trace_init` with a non-empty path, a
sequence of `xavs2_trace` calls returns each record's character count,
and the (flushed after every write) file content is exactly the
concatenation of the formatted records, in order. -/
theorem xavs2_trace_open_append (lvl : Int) (path : String)
    (hpath : 0 < path.length) (records : List String) :
    (xavs2_trace_init true { i_log_level := lvl, psz_trace_file := path }
        trace_init_state).ret = 0
    ∧ (xavs2_trace_run records
        (xavs2_trace_init true { i_log_level := lvl, psz_trace_file := path }
          trace_init_state).st).1 =
        records.map (fun s => (s.length : Int))
    ∧ (xavs2_trace_run records
        (xavs2_trace_init true { i_log_level := lvl, psz_trace_file := path }
          trace_init_state).st).2 =
        { h_trace := some { isOpen := true, content := records } } := by
  have hinit :
      xavs2_trace_init true { i_log_level := lvl, psz_trace_file := path }
        trace_init_state =
      { ret := 0, logged := [],
        st := { h_trace := some { isOpen := true, content := [] } } } := by
    simp [xavs2_trace_init, hpath]
  rw [hinit]
  refine ⟨rfl, ?_, ?_⟩
  · rw [xavs2_trace_run_open]
  · rw [xavs2_trace_run_open]
    simp

/-- Witness for C6: two records written to a fresh trace file. -/
theorem xavs2_trace_open_append_witness :
    0 < ("trace.txt" : String).length
    ∧ ((xavs2_trace_init true { i_log_level := 2, psz_trace_file := "trace.txt" }
          trace_init_state).ret = 0
      ∧ (xavs2_trace_run ["a\n", "bb\n"]
          (xavs2_trace_init true
            { i_log_level := 2, psz_trace_file := "trace.txt" }
            trace_init_state).st).1 =
          (["a\n", "bb\n"] : List String).map (fun s => (s.length : Int))
      ∧ (xavs2_trace_run ["a\n", "bb\n"]
          (xavs2_trace_init true
            { i_log_level := 2, psz_trace_file := "trace.txt" }
            trace_init_state).st).2 =
          { h_trace := some { isOpen := true, content := ["a\n", "bb\n"] } }) :=
  ⟨by decide, xavs2_trace_open_append 2 "trace.txt" (by decide) ["a\n", "bb\n"]⟩

/-- C7: `xavs2_trace_destroy` without a prior init is indeed a silent
no-op that creates no file; but after a successful init a SECOND destroy
is NOT a no-op: the code never resets `h_trace` to NULL after `fclose`,
so the second call invokes `fclose` on the already-closed stream
(double-close, undefined behavior in C), refuting the double-destroy
half of the claim. -/
theorem xavs2_trace_destroy_double_close :
    xavs2_trace_destroy trace_init_state = (false, trace_init_state)
    ∧ ((xavs2_trace_init true { i_log_level := 2, psz_trace_file := "trace.txt" }
          trace_init_state).ret = 0
      ∧ (xavs2_trace_destroy
          (xavs2_trace_init true
            { i_log_level := 2, psz_trace_file := "trace.txt" }
            trace_init_state).st).1 = false
      ∧ (xavs2_trace_destroy
          (xavs2_trace_init true
            { i_log_level := 2, psz_trace_file := "trace.txt" }
            trace_init_state).st).2.h_trace ≠ none
      ∧ (xavs2_trace_destroy
          (xavs2_trace_destroy
            (xavs2_trace_init true
              { i_log_level := 2, psz_trace_file := "trace.txt" }
              trace_init_state).st).2).1 = true) := by
  decide

/-- C9: on the POSIX branch `xavs2_mdate` returns
`sec * 1000000 + usec`, and on the millisecond fallback branch
`(sec * 1000 + ms) * 1000 = sec * 1000000 + ms * 1000` — both normalized
to microseconds and free of 64-bit wrap-around for realistic clock
readings. -/
theorem xavs2_mdate_microseconds (tv_sec tv_usec time millitm : Int)
    (h1 : 0 ≤ tv_sec) (h2 : tv_sec < 2 ^ 40)
    (h3 : 0 ≤ tv_usec) (h4 : tv_usec < 1000000)
    (h5 : 0 ≤ time) (h6 : time < 2 ^ 40)
    (h7 : 0 ≤ millitm) (h8 : millitm < 1000) :
    xavs2_mdate_posix tv_sec tv_usec = tv_sec * 1000000 + tv_usec
    ∧ xavs2_mdate_ftime time millitm = (time * 1000 + millitm) * 1000
    ∧ xavs2_mdate_ftime time millitm = time * 1000000 + millitm * 1000 := by
  have c1 : (0 : Int) < 1000000 := by norm_num
  have c2 : (0 : Int) < 1000 := by norm_num
  have k1 : tv_sec * 1000000 < 2 ^ 40 * 1000000 := by
    exact mul_lt_mul_of_pos_right h2 c1
  have k2 : 0 ≤ tv_sec * 1000000 := mul_nonneg h1 (by norm_num)
  have k3 : (2 : Int) ^ 40 * 1000000 + 1000000 ≤ 2 ^ 63 := by norm_num
  have k4 : -2 ^ 63 ≤ (0 : Int) := by norm_num
  have e1 : xavs2_mdate_posix tv_sec tv_usec = tv_sec * 1000000 + tv_usec := by
    unfold xavs2_mdate_posix
    exact int64_wrap_eq_of_bounds _ (by linarith) (by linarith)
  have k5 : time * 1000 < 2 ^ 40 * 1000 := mul_lt_mul_of_pos_right h6 c2
  have k6 : 0 ≤ time * 1000 := mul_nonneg h5 (by norm_num)
  have k7 : (time * 1000 + millitm) * 1000 < (2 ^ 40 * 1000 + 1000) * 1000 := by
    exact mul_lt_mul_of_pos_right (by linarith) c2
  have k8 : 0 ≤ (time * 1000 + millitm) * 1000 :=
    mul_nonneg (by linarith) (by norm_num)
  have k9 : ((2 : Int) ^ 40 * 1000 + 1000) * 1000 ≤ 2 ^ 63 := by norm_num
  have e2 : xavs2_mdate_ftime time millitm = (time * 1000 + millitm) * 1000 := by
    unfold xavs2_mdate_ftime
    exact int64_wrap_eq_of_bounds _ (by linarith) (by linarith)
  refine ⟨e1, e2, ?_⟩
  rw [e2]
  ring

/-- Witness for C9 at `tv_sec = 5, tv_usec = 7, time = 5, millitm = 7`. -/
theorem xavs2_mdate_microseconds_witness :
    ((0 : Int) ≤ 5 ∧ (5 : Int) < 2 ^ 40 ∧ (0 : Int) ≤ 7 ∧ (7 : Int) < 1000000
      ∧ (0 : Int) ≤ 5 ∧ (5 : Int) < 2 ^ 40 ∧ (0 : Int) ≤ 7 ∧ (7 : Int) < 1000)
    ∧ (xavs2_mdate_posix 5 7 = 5 * 1000000 + 7
      ∧ xavs2_mdate_ftime 5 7 = (5 * 1000 + 7) * 1000
      ∧ xavs2_mdate_ftime 5 7 = 5 * 1000000 + 7 * 1000) :=
  ⟨by norm_num,
   xavs2_mdate_microseconds 5 7 5 7 (by norm_num) (by norm_num) (by norm_num)
     (by norm_num) (by norm_num) (by norm_num) (by norm_num) (by norm_num)⟩

/-- C10: for a level with nonzero bits above the low 4 (hence ≥ 16, thus
matching no severity constant), the gate decision equals that of the
masked level, while the renderer dispatches on the unmasked level and
falls into the default case: red color and the `"[unknown]: "` tag. -/
theorem xavs2_log_highbits_unknown (h : xavs2_t) (S : Nat) (hS : 16 ≤ S)
    (msg : String) :
    xavs2_log_emitted (some h) S = xavs2_log_emitted (some h) (S % 16)
    ∧ xavs2_log_default S msg =
        str_color 0 ++ "[unknown]: " ++ msg ++ str_color_clear := by
  constructor
  · simp [xavs2_log_emitted, Nat.mod_mod_of_dvd S (dvd_refl 16)]
  · have n0 : ¬ S = 0 := by omega
    have n1 : ¬ S = 1 := by omega
    have n2 : ¬ S = 2 := by omega
    have n3 : ¬ S = 3 := by omega
    have n4 : ¬ S = 4 := by omega
    simp [xavs2_log_default, XAVS2_LOG_ERROR, XAVS2_LOG_WARNING, XAVS2_LOG_INFO,
      XAVS2_LOG_DEBUG, XAVS2_LOG_NOPREFIX, n0, n1, n2, n3, n4]

/-- Witness for C10 at `S = 16` (= `0x10 | XAVS2_LOG_ERROR`). -/
theorem xavs2_log_highbits_unknown_witness :
    16 ≤ 16
    ∧ (xavs2_log_emitted
          (some { param := { i_log_level := 3, psz_trace_file := "" } }) 16 =
        xavs2_log_emitted
          (some { param := { i_log_level := 3, psz_trace_file := "" } }) (16 % 16)
      ∧ xavs2_log_default 16 "x" =
          str_color 0 ++ "[unknown]: " ++ "x" ++ str_color_clear) :=
  ⟨by decide,
   xavs2_log_highbits_unknown
     { param := { i_log_level := 3, psz_trace_file := "" } } 16 (by decide) "x"⟩
